import Mathlib

/-!
Shallow embedding of the analysis-orchestration core of the
`quantasaurus-rex` repository, together with theorems settling the claims
about it.

The embedding covers:
* the retry/backoff policy (`src/src/utils/retry.py`),
* the recommendation aggregator (`src/src/models/analysis.py`),
* the agent response parser, the per-asset analysis task with its
  daily cache, and the concurrency scheduler
  (`src/src/services/react_agent.py`),
* the technical-indicator calculators (`src/src/utils/data_processing.py`).

Numeric values are modelled over `ℚ` (exact arithmetic), except for the
Bollinger-band calculator whose square root requires `ℝ`.  Asynchronous
operations are modelled as attempt-indexed result functions; sleeping is
recorded as data (the list of computed delays) rather than performed.
-/

namespace Quantasaurus

/-! ### Retry/backoff policy — `src/src/utils/retry.py` -/

/-- Configuration for retry behavior (`RetryConfig`, retry.py lines 16-33). -/
structure RetryConfig where
  max_retries : Nat
  base_delay : ℚ
  max_delay : ℚ
  exponential_base : ℚ
  jitter : Bool
  backoff_multiplier : ℚ
deriving DecidableEq, Repr

/-- A Python exception as observed by the retry machinery: whether it is a
`RateLimitError`, an `APIConnectionError`, an `APITimeoutError`, the value of
its `status_code` attribute when present, and an opaque tag distinguishing
distinct exception objects. -/
structure PyException where
  is_rate_limit : Bool
  is_connection : Bool
  is_timeout : Bool
  status_code : Option Int
  tag : Nat := 0
deriving DecidableEq, Repr

/-- `should_retry` (retry.py lines 58-79): no retry once `attempt` has reached
`max_retries`; otherwise retry on rate-limit, connection, and timeout errors
and on errors carrying a `status_code` of at least 500. -/
def should_retry (e : PyException) (attempt : Nat) (max_retries : Nat) : Bool :=
  if max_retries ≤ attempt then false
  else if e.is_rate_limit then true
  else if e.is_connection then true
  else if e.is_timeout then true
  else
    match e.status_code with
    | some s => decide (500 ≤ s)
    | none => false

/-- The attempt-independent part of `should_retry`: the error classes that the
function treats as retryable (rate limit, connection, timeout, 5xx status). -/
def retryableClass (e : PyException) : Bool :=
  e.is_rate_limit || e.is_connection || e.is_timeout ||
    (match e.status_code with
     | some s => decide (500 ≤ s)
     | none => false)

theorem should_retry_eq (e : PyException) (attempt max_retries : Nat) :
    should_retry e attempt max_retries
      = (decide (attempt < max_retries) && retryableClass e) := by
  unfold should_retry retryableClass
  by_cases h : max_retries ≤ attempt
  · simp [h, Nat.not_lt.mpr h]
  · have h' : attempt < max_retries := Nat.lt_of_not_le h
    cases hrl : e.is_rate_limit <;> cases hc : e.is_connection <;>
      cases ht : e.is_timeout <;> simp [h, h', hrl, hc, ht]

/-- The pre-jitter delay of `calculate_backoff_delay` (retry.py lines 36-48):
zero for attempt 0, otherwise
`min (base_delay * exponential_base ^ (attempt - 1) * backoff_multiplier) max_delay`. -/
def preJitterDelay (attempt : Nat) (config : RetryConfig) : ℚ :=
  if attempt = 0 then 0
  else
    min (config.base_delay * config.exponential_base ^ (attempt - 1)
          * config.backoff_multiplier)
      config.max_delay

/-- `calculate_backoff_delay` (retry.py lines 36-55).  The value returned by
`random.uniform(-jitter_range, jitter_range)` is supplied as the argument `u`
(a faithful statement constrains `|u| ≤ preJitterDelay attempt config / 10`);
when jitter is disabled no perturbation is added.  The final `max 0 _` models
`return max(0, delay)`. -/
def calculate_backoff_delay (attempt : Nat) (config : RetryConfig) (u : ℚ) : ℚ :=
  if attempt = 0 then 0
  else max 0 (preJitterDelay attempt config + (if config.jitter then u else 0))

/-- Outcome of the retry wrapper: a returned value, a raised exception, or the
dead-code generic `raise Exception(...)` at retry.py line 124 (reachable only
with zero loop iterations, which `range(max_retries + 1)` never produces). -/
inductive RetryResult (α : Type) where
  | ok (a : α)
  | raised (e : PyException)
  | allFailed
deriving DecidableEq, Repr

/-- The retry loop of `async_wrapper` (retry.py lines 93-124).  `op` gives the
outcome of each invocation of the wrapped operation, indexed by attempt
number; `caught` models membership of an exception in the decorator's
`exceptions` tuple (line 99, exceptions outside it fall to the bare
`except Exception` at line 115 and are re-raised); `draws` supplies the jitter
samples.  The result carries the number of calls made to `op` and the list of
backoff delays slept.  `fuel` is the number of loop iterations remaining
(initially `max_retries + 1`), and `last` is `last_exception`. -/
def retryRun (caught : PyException → Bool) (config : RetryConfig)
    (op : Nat → Except PyException α) (draws : Nat → ℚ) :
    Nat → Nat → Option PyException → RetryResult α × Nat × List ℚ
  | _, 0, last =>
    (match last with
     | some e => RetryResult.raised e
     | none => RetryResult.allFailed, 0, [])
  | attempt, fuel + 1, _ =>
    match op attempt with
    | Except.ok a => (RetryResult.ok a, 1, [])
    | Except.error e =>
      if caught e then
        if ! should_retry e attempt config.max_retries then
          (RetryResult.raised e, 1, [])
        else
          let d := calculate_backoff_delay (attempt + 1) config (draws attempt)
          let rest := retryRun caught config op draws (attempt + 1) fuel (some e)
          (rest.1, rest.2.1 + 1, d :: rest.2.2)
      else (RetryResult.raised e, 1, [])

/-- `async_wrapper` (retry.py lines 93-124): run the loop for
`max_retries + 1` attempts starting from attempt 0 with no recorded
exception. -/
def async_wrapper (caught : PyException → Bool) (config : RetryConfig)
    (op : Nat → Except PyException α) (draws : Nat → ℚ) :
    RetryResult α × Nat × List ℚ :=
  retryRun caught config op draws 0 (config.max_retries + 1) none

/-- The default `exceptions` tuple of `retry_with_backoff` (retry.py line 84):
`(RateLimitError, APIConnectionError, APITimeoutError)`. -/
def defaultExceptionsCaught (e : PyException) : Bool :=
  e.is_rate_limit || e.is_connection || e.is_timeout

theorem retryRun_calls_pos (caught : PyException → Bool) (config : RetryConfig)
    (op : Nat → Except PyException α) (draws : Nat → ℚ)
    (attempt fuel : Nat) (last : Option PyException) (hf : 1 ≤ fuel) :
    1 ≤ (retryRun caught config op draws attempt fuel last).2.1 := by
  obtain ⟨f, rfl⟩ : ∃ f, fuel = f + 1 :=
    ⟨fuel - 1, (Nat.succ_pred_eq_of_pos hf).symm⟩
  rw [retryRun]
  cases hop : op attempt with
  | ok a => simp
  | error e =>
    by_cases hc : caught e
    · by_cases hs : should_retry e attempt config.max_retries
      · simp [hc, hs]
      · simp [hc, hs]
    · simp [hc]

theorem retryRun_exhaust (caught : PyException → Bool) (config : RetryConfig)
    (op : Nat → Except PyException α) (draws : Nat → ℚ) :
    ∀ fuel attempt (last : Option PyException),
      attempt + fuel = config.max_retries + 1 → 1 ≤ fuel →
      (∀ k, attempt ≤ k → k ≤ config.max_retries →
        ∃ e, op k = Except.error e ∧ caught e = true ∧ retryableClass e = true) →
      ∀ eLast, op config.max_retries = Except.error eLast →
      (retryRun caught config op draws attempt fuel last).1 = RetryResult.raised eLast ∧
      (retryRun caught config op draws attempt fuel last).2.1 = fuel := by
  intro fuel
  induction fuel with
  | zero => intro attempt last h1 h2; omega
  | succ f ih =>
    intro attempt last hsum _ hall eLast hlast
    obtain ⟨e, hop, hc, hr⟩ := hall attempt le_rfl (by omega)
    cases f with
    | zero =>
      have hatt : attempt = config.max_retries := by omega
      subst hatt
      have he : e = eLast := by
        rw [hop] at hlast; exact Except.error.inj hlast
      subst he
      have hs : should_retry e config.max_retries config.max_retries = false := by
        rw [should_retry_eq]; simp
      rw [retryRun]
      simp [hop, hc, hs]
    | succ f' =>
      have hlt : attempt < config.max_retries := by omega
      have hs : should_retry e attempt config.max_retries = true := by
        rw [should_retry_eq]; simp [hlt, hr]
      have hrec := ih (attempt + 1) (some e) (by omega) (by omega)
        (fun k hk1 hk2 => hall k (by omega) hk2) eLast hlast
      rw [retryRun]
      simp only [hop, hc, hs, if_true, Bool.not_true, Bool.false_eq_true, if_false]
      exact ⟨hrec.1, by simp [hrec.2]⟩

/-- Claim C4: if the wrapped operation fails with a caught, retryable-class
error on every attempt the wrapper makes (the first try plus `max_retries`
retries), then `async_wrapper` raises the error of the final attempt as its
single final result, and calls the operation exactly `max_retries + 1` times —
no further call happens after the raise. -/
theorem c4_retry_exhausts_raises_last_error (caught : PyException → Bool)
    (config : RetryConfig) (op : Nat → Except PyException α) (draws : Nat → ℚ)
    (hall : ∀ k, k ≤ config.max_retries →
      ∃ e, op k = Except.error e ∧ caught e = true ∧ retryableClass e = true)
    (eLast : PyException) (hlast : op config.max_retries = Except.error eLast) :
    (async_wrapper caught config op draws).1 = RetryResult.raised eLast ∧
    (async_wrapper caught config op draws).2.1 = config.max_retries + 1 :=
  retryRun_exhaust caught config op draws (config.max_retries + 1) 0 none
    (by omega) (by omega) (fun k _ hk => hall k hk) eLast hlast

/-- A rate-limit error (`RateLimitError`, HTTP 429). -/
def rateLimitErr : PyException :=
  { is_rate_limit := true, is_connection := false, is_timeout := false,
    status_code := some 429, tag := 7 }

/-- A retry configuration with `max_retries = 2`, no jitter. -/
def cfgC4w : RetryConfig :=
  { max_retries := 2, base_delay := 1, max_delay := 60,
    exponential_base := 2, jitter := false, backoff_multiplier := 2 }

theorem c4_retry_exhausts_raises_last_error_witness :
    (∀ k, k ≤ cfgC4w.max_retries →
      ∃ e, (fun _ : Nat => (Except.error rateLimitErr : Except PyException Unit)) k
            = Except.error e ∧ defaultExceptionsCaught e = true ∧ retryableClass e = true) ∧
    (async_wrapper defaultExceptionsCaught cfgC4w
        (fun _ : Nat => (Except.error rateLimitErr : Except PyException Unit))
        (fun _ => 0)).1 = RetryResult.raised rateLimitErr ∧
    (async_wrapper defaultExceptionsCaught cfgC4w
        (fun _ : Nat => (Except.error rateLimitErr : Except PyException Unit))
        (fun _ => 0)).2.1 = cfgC4w.max_retries + 1 :=
  ⟨fun _ _ => ⟨rateLimitErr, rfl, rfl, rfl⟩,
   (c4_retry_exhausts_raises_last_error defaultExceptionsCaught cfgC4w _ _
      (fun _ _ => ⟨rateLimitErr, rfl, rfl, rfl⟩) rateLimitErr rfl).1,
   (c4_retry_exhausts_raises_last_error defaultExceptionsCaught cfgC4w _ _
      (fun _ _ => ⟨rateLimitErr, rfl, rfl, rfl⟩) rateLimitErr rfl).2⟩

/-- A generic server error: HTTP 503, not a rate-limit/connection/timeout
error, hence outside the default `exceptions` tuple of `retry_with_backoff`. -/
def serverErr503 : PyException :=
  { is_rate_limit := false, is_connection := false, is_timeout := false,
    status_code := some 503, tag := 3 }

/-- Claim C5, counterexample: under the default caught-exceptions tuple, an
error with a 5xx status code is classified retryable by `should_retry`
(`retryableClass serverErr503 = true`) and retries remain
(`0 < max_retries`), yet `async_wrapper` propagates it immediately after a
single call with no backoff delay — it is never retried, contradicting the
claim that any error exposing a 5xx-equivalent status code is retried. -/
theorem c5_counterexample_5xx_outside_tuple_not_retried :
    retryableClass serverErr503 = true ∧
    0 < cfgC4w.max_retries ∧
    async_wrapper defaultExceptionsCaught cfgC4w
        (fun _ : Nat => (Except.error serverErr503 : Except PyException Unit))
        (fun _ => 0)
      = (RetryResult.raised serverErr503, 1, []) :=
  ⟨rfl, by norm_num [cfgC4w], rfl⟩

/-- Claim C5 (amended): an error raised on the first attempt is retried —
consuming a retry and a backoff delay — when it is in the wrapper's
caught-exceptions tuple, is of retryable class (rate-limit, connection,
timeout, or 5xx status), and retries remain; any error that is outside the
tuple or not of retryable class propagates to the caller immediately after a
single call, consuming no retry and no delay. -/
theorem c5_error_classification (caught : PyException → Bool)
    (config : RetryConfig) (op : Nat → Except PyException α) (draws : Nat → ℚ)
    (e : PyException) (h0 : op 0 = Except.error e) :
    (caught e = true → retryableClass e = true → 0 < config.max_retries →
      2 ≤ (async_wrapper caught config op draws).2.1 ∧
      (async_wrapper caught config op draws).2.2.head?
        = some (calculate_backoff_delay 1 config (draws 0))) ∧
    ((caught e = false ∨ retryableClass e = false) →
      async_wrapper caught config op draws = (RetryResult.raised e, 1, [])) := by
  constructor
  · intro hc hr hm
    have hs : should_retry e 0 config.max_retries = true := by
      rw [should_retry_eq]; simp [hm, hr]
    unfold async_wrapper
    rw [retryRun]
    simp only [h0, hc, hs, if_true, Bool.not_true, Bool.false_eq_true, if_false]
    refine ⟨?_, rfl⟩
    have := retryRun_calls_pos caught config op draws 1 config.max_retries
      (some e) hm
    simpa using Nat.add_le_add this (le_refl 1)
  · intro hne
    unfold async_wrapper
    rw [retryRun]
    rcases hne with hne | hne
    · simp [h0, hne]
    · have hs : should_retry e 0 config.max_retries = false := by
        rw [should_retry_eq]; simp [hne]
      by_cases hc : caught e <;> simp [h0, hc, hs]

theorem c5_error_classification_witness :
    ((fun _ : Nat => (Except.error rateLimitErr : Except PyException Unit)) 0
        = Except.error rateLimitErr) ∧
    2 ≤ (async_wrapper defaultExceptionsCaught cfgC4w
          (fun _ : Nat => (Except.error rateLimitErr : Except PyException Unit))
          (fun _ => 0)).2.1 ∧
    (async_wrapper defaultExceptionsCaught cfgC4w
        (fun _ : Nat => (Except.error rateLimitErr : Except PyException Unit))
        (fun _ => 0)).2.2.head?
      = some (calculate_backoff_delay 1 cfgC4w ((fun _ : Nat => (0 : ℚ)) 0)) :=
  ⟨rfl,
   (c5_error_classification defaultExceptionsCaught cfgC4w _ _ rateLimitErr rfl).1
      rfl rfl (by norm_num [cfgC4w]) |>.1,
   (c5_error_classification defaultExceptionsCaught cfgC4w _ _ rateLimitErr rfl).1
      rfl rfl (by norm_num [cfgC4w]) |>.2⟩

/-- A configuration whose exponential base is below 1, making the pre-jitter
backoff delay strictly decreasing between attempts 1 and 2. -/
def cfgC6cx : RetryConfig :=
  { max_retries := 3, base_delay := 1, max_delay := 60,
    exponential_base := 1/2, jitter := false, backoff_multiplier := 1 }

/-- Claim C6, counterexample: it is not true that for every retry
configuration the pre-jitter backoff delay is monotonically non-decreasing in
the attempt number: with `exponential_base = 1/2` the delay for attempt 2
(`1/2`) is strictly below the delay for attempt 1 (`1`). -/
theorem c6_counterexample_delay_not_monotone :
    ¬ (∀ (config : RetryConfig) (k : Nat),
        preJitterDelay k config ≤ preJitterDelay (k + 1) config) := by
  intro h
  have h1 := h cfgC6cx 1
  norm_num [preJitterDelay, cfgC6cx] at h1

/-- Claim C6 (amended): for every retry configuration with nonnegative base
and maximum delays, exponential base at least 1 and backoff multiplier at
least 1, the pre-jitter delay for attempt `k ≥ 1` equals
`min maxDelay (baseDelay * exponentialBase ^ (k-1) * backoffMultiplier)`,
attempt 0 has zero delay, the pre-jitter delay is monotonically
non-decreasing in the attempt number and at most
`maxDelay * backoffMultiplier`, and the jittered delay adds the uniform
sample and is never below 0. -/
theorem c6_backoff_delay_formula (config : RetryConfig) (k : Nat) (u : ℚ)
    (hb : 0 ≤ config.base_delay) (hM : 0 ≤ config.max_delay)
    (he : 1 ≤ config.exponential_base) (hm : 1 ≤ config.backoff_multiplier) :
    (1 ≤ k → preJitterDelay k config
      = min config.max_delay
          (config.base_delay * config.exponential_base ^ (k - 1)
            * config.backoff_multiplier)) ∧
    calculate_backoff_delay 0 config u = 0 ∧
    preJitterDelay k config ≤ preJitterDelay (k + 1) config ∧
    preJitterDelay k config ≤ config.max_delay * config.backoff_multiplier ∧
    (1 ≤ k → config.jitter = true →
      calculate_backoff_delay k config u
        = max 0 (preJitterDelay k config + u)) ∧
    0 ≤ calculate_backoff_delay k config u := by
  have hb' : 0 ≤ config.backoff_multiplier := le_trans zero_le_one hm
  have hbm : 0 ≤ config.base_delay * config.backoff_multiplier :=
    mul_nonneg hb hb'
  have hpow : ∀ n : Nat, (0:ℚ) ≤ config.exponential_base ^ n := fun n =>
    pow_nonneg (le_trans zero_le_one he) n
  refine ⟨?_, ?_, ?_, ?_, ?_, ?_⟩
  · intro hk
    have : k ≠ 0 := by omega
    simp [preJitterDelay, this, min_comm]
  · simp [calculate_backoff_delay]
  · rcases Nat.eq_zero_or_pos k with hk | hk
    · subst hk
      simp only [preJitterDelay, if_pos rfl, if_neg (Nat.one_ne_zero)]
      refine le_min ?_ hM
      have := mul_nonneg hb (hpow 0)
      calc (0:ℚ) ≤ config.base_delay * config.exponential_base ^ 0
              * config.backoff_multiplier := mul_nonneg this hb'
        _ = _ := by norm_num
    · have hk1 : k ≠ 0 := by omega
      have hk2 : k + 1 ≠ 0 := by omega
      simp only [preJitterDelay, if_neg hk1, if_neg hk2]
      refine min_le_min ?_ le_rfl
      have hpe : config.exponential_base ^ (k - 1)
          ≤ config.exponential_base ^ (k + 1 - 1) :=
        pow_le_pow_right₀ he (by omega)
      have := mul_le_mul_of_nonneg_left hpe hb
      exact mul_le_mul_of_nonneg_right this hb'
  · rcases Nat.eq_zero_or_pos k with hk | hk
    · subst hk
      simpa [preJitterDelay] using mul_nonneg hM hb'
    · have hk1 : k ≠ 0 := by omega
      simp only [preJitterDelay, if_neg hk1]
      exact le_trans (min_le_right _ _) (le_mul_of_one_le_right hM hm)
  · intro hk hj
    have : k ≠ 0 := by omega
    simp [calculate_backoff_delay, this, hj]
  · rcases Nat.eq_zero_or_pos k with hk | hk
    · subst hk; simp [calculate_backoff_delay]
    · have hk1 : k ≠ 0 := by omega
      simp [calculate_backoff_delay, hk1]

/-- A well-formed retry configuration with jitter enabled. -/
def cfgC6w : RetryConfig :=
  { max_retries := 3, base_delay := 1, max_delay := 60,
    exponential_base := 2, jitter := true, backoff_multiplier := 3/2 }

theorem c6_backoff_delay_formula_witness :
    ((0:ℚ) ≤ cfgC6w.base_delay ∧ (0:ℚ) ≤ cfgC6w.max_delay ∧
      (1:ℚ) ≤ cfgC6w.exponential_base ∧ (1:ℚ) ≤ cfgC6w.backoff_multiplier) ∧
    ((1 ≤ 2 → preJitterDelay 2 cfgC6w
        = min cfgC6w.max_delay
            (cfgC6w.base_delay * cfgC6w.exponential_base ^ (2 - 1)
              * cfgC6w.backoff_multiplier)) ∧
      calculate_backoff_delay 0 cfgC6w (1/10) = 0 ∧
      preJitterDelay 2 cfgC6w ≤ preJitterDelay 3 cfgC6w ∧
      preJitterDelay 2 cfgC6w ≤ cfgC6w.max_delay * cfgC6w.backoff_multiplier ∧
      (1 ≤ 2 → cfgC6w.jitter = true →
        calculate_backoff_delay 2 cfgC6w (1/10)
          = max 0 (preJitterDelay 2 cfgC6w + 1/10)) ∧
      0 ≤ calculate_backoff_delay 2 cfgC6w (1/10)) :=
  ⟨⟨by norm_num [cfgC6w], by norm_num [cfgC6w], by norm_num [cfgC6w],
    by norm_num [cfgC6w]⟩,
   c6_backoff_delay_formula cfgC6w 2 (1/10) (by norm_num [cfgC6w])
     (by norm_num [cfgC6w]) (by norm_num [cfgC6w]) (by norm_num [cfgC6w])⟩

/-! ### Analysis data model — `src/src/models/analysis.py` -/

/-- Investment recommendation (`Recommendation`). -/
inductive Recommendation where
  | BUY
  | SELL
  | HOLD
deriving DecidableEq, Repr

/-- Trend direction (`TrendDirection`). -/
inductive TrendDirection where
  | bullish
  | bearish
  | neutral
deriving DecidableEq, Repr

/-- Risk level (`RiskLevel`). -/
inductive RiskLevel where
  | low
  | medium
  | high
  | very_high
deriving DecidableEq, Repr

/-- Sentiment level (`SentimentLevel`). -/
inductive SentimentLevel where
  | very_positive
  | positive
  | neutral
  | negative
  | very_negative
deriving DecidableEq, Repr

/-- `TechnicalAnalysis` (analysis.py lines 69-90), restricted to the fields
the orchestration core reads:`trend`, `technical_score`, `confidence` and
`summary`; the optional indicator/pattern fields never feed the aggregator. -/
structure TechnicalAnalysis where
  trend : TrendDirection
  technical_score : ℚ
  confidence : ℚ
  summary : String
deriving DecidableEq, Repr

/-- `SentimentAnalysis` (analysis.py lines 104-120), fields read by the core. -/
structure SentimentAnalysis where
  sentiment_level : SentimentLevel
  sentiment_score : ℚ
  news_sentiment : SentimentLevel
  confidence : ℚ
  summary : String
deriving DecidableEq, Repr

/-- `EventAnalysis` (analysis.py lines 133-145), fields read by the core. -/
structure EventAnalysis where
  overall_impact : String
  confidence : ℚ
deriving DecidableEq, Repr

/-- `RiskAssessment` (analysis.py lines 168-187), fields read by the core.
`portfolio_weight` is the optional field back-filled by the correlation
pass. -/
structure RiskAssessment where
  risk_level : RiskLevel
  risk_score : ℚ
  portfolio_weight : Option ℚ := none
  summary : String
  confidence : ℚ
deriving DecidableEq, Repr

/-- Asset type (`AssetType`, portfolio.py lines 9-12). -/
inductive AssetType where
  | stock
  | crypto
deriving DecidableEq, Repr

/-- `AssetAnalysis` (analysis.py lines 190-223), fields read or written by the
orchestration core.  Reasoning text is kept as a character list so the
keyword scan of the consistency check can be stated over it. -/
structure AssetAnalysis where
  symbol : String
  asset_type : AssetType
  current_price : ℚ
  market_value : ℚ
  technical_analysis : TechnicalAnalysis
  sentiment_analysis : SentimentAnalysis
  event_analysis : EventAnalysis
  risk_assessment : RiskAssessment
  recommendation : Recommendation
  overall_score : ℚ
  confidence : ℚ
  reasoning : List Char
deriving DecidableEq, Repr

/-- `AssetAnalysis.create_analysis` (analysis.py lines 241-288): the
aggregator.  Overall score is the weighted sum of the technical score, the
normalized sentiment score and the inverted risk score, clamped to `[0,1]`;
overall confidence is the mean of the technical, sentiment and risk
confidences.  The event analysis is stored but enters neither number. -/
def AssetAnalysis.create_analysis (symbol : String) (asset_type : AssetType)
    (current_price market_value : ℚ)
    (technical_analysis : TechnicalAnalysis)
    (sentiment_analysis : SentimentAnalysis)
    (event_analysis : EventAnalysis)
    (risk_assessment : RiskAssessment)
    (recommendation : Recommendation)
    (reasoning : List Char) : AssetAnalysis :=
  let tech_score := technical_analysis.technical_score
  let sentiment_score := (sentiment_analysis.sentiment_score + 1) / 2
  let risk_score := 1 - risk_assessment.risk_score
  let overall_score := tech_score * 0.4 + sentiment_score * 0.3 + risk_score * 0.3
  let overall_score := max 0 (min 1 overall_score)
  let overall_confidence :=
    (technical_analysis.confidence + sentiment_analysis.confidence
      + risk_assessment.confidence) / 3
  { symbol := symbol, asset_type := asset_type,
    current_price := current_price, market_value := market_value,
    technical_analysis := technical_analysis,
    sentiment_analysis := sentiment_analysis,
    event_analysis := event_analysis, risk_assessment := risk_assessment,
    recommendation := recommendation, overall_score := overall_score,
    confidence := overall_confidence, reasoning := reasoning }

/-- Claim C2: for every technical, sentiment, event and risk sub-analysis,
the aggregated `AssetAnalysis` produced by `create_analysis` has overall
score `0.4 * technical + 0.3 * (sentiment + 1)/2 + 0.3 * (1 - risk)` clamped
to `[0,1]`, and overall confidence the arithmetic mean of the technical,
sentiment and risk confidences; replacing the event sub-analysis changes
neither number. -/
theorem c2_aggregator_score_and_confidence (symbol : String)
    (asset_type : AssetType) (cp mv : ℚ) (t : TechnicalAnalysis)
    (s : SentimentAnalysis) (ev ev2 : EventAnalysis) (r : RiskAssessment)
    (rec : Recommendation) (reasoning : List Char) :
    (AssetAnalysis.create_analysis symbol asset_type cp mv t s ev r rec
        reasoning).overall_score
      = max 0 (min 1 (0.4 * t.technical_score
          + 0.3 * ((s.sentiment_score + 1) / 2)
          + 0.3 * (1 - r.risk_score))) ∧
    (AssetAnalysis.create_analysis symbol asset_type cp mv t s ev r rec
        reasoning).confidence
      = (t.confidence + s.confidence + r.confidence) / 3 ∧
    (AssetAnalysis.create_analysis symbol asset_type cp mv t s ev r rec
        reasoning).overall_score
      = (AssetAnalysis.create_analysis symbol asset_type cp mv t s ev2 r rec
        reasoning).overall_score ∧
    (AssetAnalysis.create_analysis symbol asset_type cp mv t s ev r rec
        reasoning).confidence
      = (AssetAnalysis.create_analysis symbol asset_type cp mv t s ev2 r rec
        reasoning).confidence := by
  refine ⟨?_, rfl, rfl, rfl⟩
  show max 0 (min 1 _) = max 0 (min 1 _)
  congr 1
  congr 1
  ring

/-! ### Portfolio model — `src/src/models/portfolio.py` -/

/-- A portfolio position (`StockPosition` / `CryptoPosition`,
portfolio.py lines 15-90), restricted to the fields the orchestration core
reads. -/
structure Position where
  symbol : String
  asset_type : AssetType
  quantity : ℚ
  current_price : ℚ
  market_value : ℚ
deriving DecidableEq, Repr

/-- `Portfolio` (portfolio.py lines 93-168), fields read by the core. -/
structure Portfolio where
  stocks : List Position
  crypto : List Position
  total_value : ℚ
deriving DecidableEq, Repr

/-! ### Agent response parser — `react_agent.py`, `_parse_agent_response` -/

/-- `str.lower()`. -/
def pyLower (text : List Char) : List Char := text.map Char.toLower

/-- Python's `needle in text` substring test. -/
def pyContains (needle : String) (text : List Char) : Bool :=
  decide (needle.toList <:+: text)

/-- The `negative_indicators` keyword list (react_agent.py lines 463, 477). -/
def negative_indicators : List String :=
  ["sell", "avoid", "negative", "decline", "drop", "risk", "concern"]

/-- The `positive_indicators` keyword list (react_agent.py lines 464, 476). -/
def positive_indicators : List String :=
  ["buy", "strong", "growth", "positive", "upside", "opportunity"]

/-- `sum(1 for indicator in indicators if indicator in reasoning_text)`. -/
def countIndicators (indicators : List String) (text : List Char) : Nat :=
  (indicators.filter (fun kw => pyContains kw text)).length

/-- The recommendation-vs-reasoning consistency check
(react_agent.py lines 459-487): for a BUY whose reasoning has strictly more
negative than positive keywords — and symmetrically for a SELL — drop the
confidence by 0.2, floored at 0.3.  Only the confidence is adjusted. -/
def applyConsistencyCheck (recommendation : Recommendation) (confidence : ℚ)
    (reasoning : List Char) : ℚ :=
  let reasoning_text := pyLower reasoning
  match recommendation with
  | Recommendation.BUY =>
    if countIndicators positive_indicators reasoning_text
        < countIndicators negative_indicators reasoning_text then
      max 0.3 (confidence - 0.2)
    else confidence
  | Recommendation.SELL =>
    if countIndicators negative_indicators reasoning_text
        < countIndicators positive_indicators reasoning_text then
      max 0.3 (confidence - 0.2)
    else confidence
  | Recommendation.HOLD => confidence

/-- Abstraction of the regex scan of the agent response text
(react_agent.py lines 370-448): either the structured
`=== INVESTMENT RECOMMENDATION ===` block matched (carrying the results of
the three inner field regexes), or it did not and the fallback keyword scan
applies (whether "BUY"/"SELL" occur in the uppercased text, the first
confidence figure found, the first reasoning capture).  Captured reasoning is
stored already stripped, as the regexes produce it. -/
inductive ParsePath where
  | structured (rec_match : Option Recommendation) (conf_match : Option ℚ)
      (reasoning_match : Option (List Char))
  | fallback (has_buy : Bool) (has_sell : Bool) (conf_match : Option ℚ)
      (reasoning_match : Option (List Char))
deriving DecidableEq, Repr

/-- Confidence normalization (react_agent.py lines 396-399 and 430-434): a
figure above 1 is divided by 100, then the value is clamped to `[0,1]` via
`min(max(value, 0.0), 1.0)`. -/
def clampConfidence (v : ℚ) : ℚ :=
  min (max (if 1 < v then v / 100 else v) 0) 1

/-- Recommendation-strength confidence defaults
(react_agent.py lines 450-457). -/
def defaultConfidenceFor : Recommendation → ℚ
  | Recommendation.BUY => 0.75
  | Recommendation.SELL => 0.7
  | Recommendation.HOLD => 0.6

/-- `_create_default_technical_analysis` (react_agent.py lines 854-862). -/
def default_technical_analysis : TechnicalAnalysis :=
  { trend := TrendDirection.neutral, technical_score := 0.5,
    confidence := 0.6,
    summary := "Technical analysis completed with limited data" }

/-- `_create_default_sentiment_analysis` (react_agent.py lines 864-872). -/
def default_sentiment_analysis : SentimentAnalysis :=
  { sentiment_level := SentimentLevel.neutral, sentiment_score := 0,
    news_sentiment := SentimentLevel.neutral, confidence := 0.6,
    summary := "Sentiment analysis completed with limited data" }

/-- `_create_default_event_analysis` (react_agent.py lines 874-879). -/
def default_event_analysis : EventAnalysis :=
  { overall_impact := "neutral", confidence := 0.6 }

/-- `_create_default_risk_assessment` (react_agent.py lines 881-889). -/
def default_risk_assessment : RiskAssessment :=
  { risk_level := RiskLevel.medium, risk_score := 0.5,
    summary := "Risk assessment completed with limited data",
    confidence := 0.6 }

/-- The recommendation extracted along a parse path
(react_agent.py lines 381-390 and 410-415).  When the structured block lacks
a `Final Recommendation` field the initial HOLD of the default skeleton
stays. -/
def parsedRecommendation : ParsePath → Recommendation
  | ParsePath.structured rm _ _ => rm.getD Recommendation.HOLD
  | ParsePath.fallback hb hs _ _ =>
    if hb then Recommendation.BUY
    else if hs then Recommendation.SELL
    else Recommendation.HOLD

/-- The confidence extracted along a parse path
(react_agent.py lines 392-399 and 417-435); absent a match the confidence of
the default skeleton (`base_confidence`) stays. -/
def parsedConfidence (base_confidence : ℚ) : ParsePath → ℚ
  | ParsePath.structured _ cm _ => (cm.map clampConfidence).getD base_confidence
  | ParsePath.fallback _ _ cm _ => (cm.map clampConfidence).getD base_confidence

/-- The reasoning extracted along a parse path (react_agent.py lines 401-405
and 437-448), truncated to 2500 characters; absent a match the default
skeleton's reasoning stays. -/
def parsedReasoning (base_reasoning : List Char) : ParsePath → List Char
  | ParsePath.structured _ _ gm => (gm.map (List.take 2500)).getD base_reasoning
  | ParsePath.fallback _ _ _ gm => (gm.map (List.take 2500)).getD base_reasoning

/-- `_parse_agent_response` (react_agent.py lines 349-491): build the default
skeleton via `create_analysis`, overwrite recommendation/confidence/reasoning
with the extracted values, replace an exactly-zero confidence by the
recommendation-dependent default (lines 450-457), then run the consistency
check (lines 459-487). -/
def parse_agent_response (path : ParsePath) (position : Position) : AssetAnalysis :=
  let base := AssetAnalysis.create_analysis position.symbol position.asset_type
    position.current_price position.market_value default_technical_analysis
    default_sentiment_analysis default_event_analysis default_risk_assessment
    Recommendation.HOLD "Default analysis with limited data".toList
  let recommendation := parsedRecommendation path
  let confidence := parsedConfidence base.confidence path
  let reasoning := parsedReasoning base.reasoning path
  let confidence :=
    if confidence = 0 then defaultConfidenceFor recommendation else confidence
  let confidence := applyConsistencyCheck recommendation confidence reasoning
  { base with
    recommendation := recommendation
    confidence := confidence
    reasoning := reasoning }

/-- `_create_default_analysis` (react_agent.py lines 891-904). -/
def _create_default_analysis (position : Position) : AssetAnalysis :=
  AssetAnalysis.create_analysis position.symbol position.asset_type
    position.current_price position.market_value default_technical_analysis
    default_sentiment_analysis default_event_analysis default_risk_assessment
    Recommendation.HOLD "Default analysis due to processing error".toList

theorem clampConfidence_nonneg (v : ℚ) : 0 ≤ clampConfidence v :=
  le_min (le_max_right _ _) zero_le_one

theorem clampConfidence_le_one (v : ℚ) : clampConfidence v ≤ 1 :=
  min_le_right _ _

theorem parsedConfidence_nonneg (b : ℚ) (hb : 0 ≤ b) (path : ParsePath) :
    0 ≤ parsedConfidence b path := by
  cases path with
  | structured rm cm gm =>
    cases cm with
    | none => simpa [parsedConfidence] using hb
    | some v => simpa [parsedConfidence] using clampConfidence_nonneg v
  | fallback hb' hs cm gm =>
    cases cm with
    | none => simpa [parsedConfidence] using hb
    | some v => simpa [parsedConfidence] using clampConfidence_nonneg v

theorem parsedConfidence_le_one (b : ℚ) (hb : b ≤ 1) (path : ParsePath) :
    parsedConfidence b path ≤ 1 := by
  cases path with
  | structured rm cm gm =>
    cases cm with
    | none => simpa [parsedConfidence] using hb
    | some v => simpa [parsedConfidence] using clampConfidence_le_one v
  | fallback hb' hs cm gm =>
    cases cm with
    | none => simpa [parsedConfidence] using hb
    | some v => simpa [parsedConfidence] using clampConfidence_le_one v

theorem parse_agent_response_recommendation (path : ParsePath)
    (position : Position) :
    (parse_agent_response path position).recommendation
      = parsedRecommendation path := rfl

theorem parse_agent_response_confidence (path : ParsePath)
    (position : Position) :
    (parse_agent_response path position).confidence
      = applyConsistencyCheck (parsedRecommendation path)
          (if parsedConfidence 0.6 path = 0 then
            defaultConfidenceFor (parsedRecommendation path)
          else parsedConfidence 0.6 path)
          (parsedReasoning "Default analysis with limited data".toList path) := by
  have hb : (AssetAnalysis.create_analysis position.symbol position.asset_type
      position.current_price position.market_value default_technical_analysis
      default_sentiment_analysis default_event_analysis
      default_risk_assessment Recommendation.HOLD
      "Default analysis with limited data".toList).confidence = 0.6 := by
    norm_num [AssetAnalysis.create_analysis, default_technical_analysis,
      default_sentiment_analysis, default_risk_assessment]
  simp only [parse_agent_response, hb]
  rfl

theorem clampConfidence_eval_pct (v : ℚ) (h1 : 1 < v) (h2 : v ≤ 100) :
    clampConfidence v = v / 100 := by
  unfold clampConfidence
  rw [if_pos h1, max_eq_left (by linarith), min_eq_left (by linarith)]

theorem applyConsistencyCheck_pos (recommendation : Recommendation)
    (confidence : ℚ) (reasoning : List Char) (h : 0 < confidence) :
    0 < applyConsistencyCheck recommendation confidence reasoning := by
  unfold applyConsistencyCheck
  cases recommendation <;> dsimp only <;> try exact h
  all_goals
    split
    · exact lt_max_of_lt_left (by norm_num)
    · exact h

theorem applyConsistencyCheck_le_one (recommendation : Recommendation)
    (confidence : ℚ) (reasoning : List Char) (h : confidence ≤ 1) :
    applyConsistencyCheck recommendation confidence reasoning ≤ 1 := by
  unfold applyConsistencyCheck
  cases recommendation <;> dsimp only <;> try exact h
  all_goals
    split
    · exact max_le (by norm_num) (by linarith)
    · exact h

/-- Claim C9 (amended): whenever a parsed BUY (resp. SELL) has strictly more
contradicting than aligned keywords in its reasoning, the consistency check
sets the confidence to `max 0.3 (confidence - 0.2)` and never changes the
recommendation; a BUY whose reasoning contains only negative-sentiment
keywords ends with a confidence strictly lower than the same BUY with no
negative keywords, provided the pre-check confidence exceeds the 0.3
floor. -/
theorem c9_consistency_check_penalty (rc : Recommendation) (c : ℚ)
    (reasoning : List Char) (path : ParsePath) (position : Position) :
    (rc = Recommendation.BUY →
      countIndicators positive_indicators (pyLower reasoning)
        < countIndicators negative_indicators (pyLower reasoning) →
      applyConsistencyCheck rc c reasoning = max 0.3 (c - 0.2)) ∧
    (rc = Recommendation.SELL →
      countIndicators negative_indicators (pyLower reasoning)
        < countIndicators positive_indicators (pyLower reasoning) →
      applyConsistencyCheck rc c reasoning = max 0.3 (c - 0.2)) ∧
    (parse_agent_response path position).recommendation
      = parsedRecommendation path ∧
    (∀ r1 r2 : List Char, 0.3 < c →
      1 ≤ countIndicators negative_indicators (pyLower r1) →
      countIndicators positive_indicators (pyLower r1) = 0 →
      countIndicators negative_indicators (pyLower r2) = 0 →
      applyConsistencyCheck Recommendation.BUY c r1
        < applyConsistencyCheck Recommendation.BUY c r2) := by
  refine ⟨?_, ?_, ?_, ?_⟩
  · rintro rfl hlt
    simp [applyConsistencyCheck, hlt]
  · rintro rfl hlt
    simp [applyConsistencyCheck, hlt]
  · simp [parse_agent_response]
  · intro r1 r2 hc h1 h2 h3
    have hl1 : countIndicators positive_indicators (pyLower r1)
        < countIndicators negative_indicators (pyLower r1) := by omega
    have hl2 : ¬ (countIndicators positive_indicators (pyLower r2)
        < countIndicators negative_indicators (pyLower r2)) := by omega
    simp only [applyConsistencyCheck, if_pos hl1, if_neg hl2]
    exact max_lt hc (by linarith)

/-- Reasoning text consisting of a single negative-sentiment keyword. -/
def negReasoningW : List Char := "decline".toList

/-- Reasoning text containing no sentiment keyword at all. -/
def blandReasoningW : List Char := "calm".toList

/-- A concrete stock position. -/
def posW : Position :=
  { symbol := "AAPL", asset_type := AssetType.stock, quantity := 1,
    current_price := 100, market_value := 100 }

/-- Structured response: BUY at confidence 30%, negative-only reasoning. -/
def pathNegW : ParsePath :=
  ParsePath.structured (some Recommendation.BUY) (some 30) (some negReasoningW)

/-- Structured response: BUY at confidence 30%, keyword-free reasoning. -/
def pathBlandW : ParsePath :=
  ParsePath.structured (some Recommendation.BUY) (some 30) (some blandReasoningW)

/-- Claim C9, counterexample: a parsed BUY at confidence 0.30 whose reasoning
contains only negative-sentiment keywords ends at the 0.3 floor — exactly the
confidence of the same BUY with no negative keywords, not strictly lower. -/
theorem c9_counterexample_floor_not_strict :
    (parse_agent_response pathNegW posW).recommendation = Recommendation.BUY ∧
    (parse_agent_response pathBlandW posW).recommendation = Recommendation.BUY ∧
    1 ≤ countIndicators negative_indicators (pyLower negReasoningW) ∧
    countIndicators positive_indicators (pyLower negReasoningW) = 0 ∧
    countIndicators negative_indicators (pyLower blandReasoningW) = 0 ∧
    (parse_agent_response pathNegW posW).confidence = 3/10 ∧
    (parse_agent_response pathBlandW posW).confidence = 3/10 ∧
    ¬ ((parse_agent_response pathNegW posW).confidence
        < (parse_agent_response pathBlandW posW).confidence) := by
  have hpcN : parsedConfidence 0.6 pathNegW = 3/10 := by
    show clampConfidence 30 = 3/10
    rw [clampConfidence_eval_pct 30 (by norm_num) (by norm_num)]
    norm_num
  have hpcB : parsedConfidence 0.6 pathBlandW = 3/10 := hpcN
  have hcN : (parse_agent_response pathNegW posW).confidence = 3/10 := by
    rw [parse_agent_response_confidence, hpcN, if_neg (by norm_num)]
    show (if countIndicators positive_indicators
          (pyLower (List.take 2500 negReasoningW))
        < countIndicators negative_indicators
          (pyLower (List.take 2500 negReasoningW)) then
      max 0.3 ((3:ℚ)/10 - 0.2) else (3:ℚ)/10) = 3/10
    rw [if_pos (by decide), max_eq_left (by norm_num)]
    norm_num
  have hcB : (parse_agent_response pathBlandW posW).confidence = 3/10 := by
    rw [parse_agent_response_confidence, hpcB, if_neg (by norm_num)]
    show (if countIndicators positive_indicators
          (pyLower (List.take 2500 blandReasoningW))
        < countIndicators negative_indicators
          (pyLower (List.take 2500 blandReasoningW)) then
      max 0.3 ((3:ℚ)/10 - 0.2) else (3:ℚ)/10) = 3/10
    rw [if_neg (by decide)]
  refine ⟨rfl, rfl, by decide, by decide, by decide, hcN, hcB, ?_⟩
  rw [hcN, hcB]
  exact lt_irrefl _

theorem c9_consistency_check_penalty_witness :
    (Recommendation.BUY = Recommendation.BUY) ∧
    countIndicators positive_indicators (pyLower negReasoningW)
      < countIndicators negative_indicators (pyLower negReasoningW) ∧
    applyConsistencyCheck Recommendation.BUY (4/5) negReasoningW
      = max 0.3 (4/5 - 0.2) ∧
    ((0.3:ℚ) < 4/5) ∧
    applyConsistencyCheck Recommendation.BUY (4/5) negReasoningW
      < applyConsistencyCheck Recommendation.BUY (4/5) blandReasoningW :=
  ⟨rfl, by decide,
   (c9_consistency_check_penalty Recommendation.BUY (4/5) negReasoningW
      pathNegW posW).1 rfl (by decide),
   by norm_num,
   (c9_consistency_check_penalty Recommendation.BUY (4/5) negReasoningW
      pathNegW posW).2.2.2 negReasoningW blandReasoningW (by norm_num)
     (by decide) (by decide) (by decide)⟩

/-- Claim C10: a parsed confidence figure above 1 is divided by 100 and then
clamped to `[0,1]`; the clamped value always lies in `[0,1]`; a confidence
that is exactly 0 after extraction is replaced by the recommendation-dependent
default (0.75 BUY / 0.70 SELL / 0.60 HOLD); and the confidence stored in the
returned analysis is never 0 and never above 1. -/
theorem c10_confidence_normalization (path : ParsePath) (position : Position)
    (v : ℚ) :
    (1 < v → clampConfidence v = min (max (v / 100) 0) 1) ∧
    (0 ≤ clampConfidence v ∧ clampConfidence v ≤ 1) ∧
    (parsedConfidence 0.6 path = 0 →
      (parse_agent_response path position).confidence
        = applyConsistencyCheck (parsedRecommendation path)
            (defaultConfidenceFor (parsedRecommendation path))
            (parsedReasoning "Default analysis with limited data".toList path)) ∧
    (0 < (parse_agent_response path position).confidence ∧
      (parse_agent_response path position).confidence ≤ 1) := by
  have hconf := parse_agent_response_confidence path position
  refine ⟨?_, ⟨clampConfidence_nonneg v, clampConfidence_le_one v⟩, ?_, ?_⟩
  · intro hv
    simp [clampConfidence, hv, min_comm]
  · intro h0
    rw [hconf, if_pos h0]
  · have hzf : 0 < (if parsedConfidence 0.6 path = 0 then
          defaultConfidenceFor (parsedRecommendation path)
        else parsedConfidence 0.6 path) ∧
        (if parsedConfidence 0.6 path = 0 then
          defaultConfidenceFor (parsedRecommendation path)
        else parsedConfidence 0.6 path) ≤ 1 := by
      split
      · cases parsedRecommendation path <;>
          exact ⟨by norm_num [defaultConfidenceFor],
            by norm_num [defaultConfidenceFor]⟩
      · rename_i hne
        have h0 := parsedConfidence_nonneg 0.6 (by norm_num) path
        exact ⟨lt_of_le_of_ne h0 (Ne.symm hne),
          parsedConfidence_le_one 0.6 (by norm_num) path⟩
    rw [hconf]
    exact ⟨applyConsistencyCheck_pos _ _ _ hzf.1,
      applyConsistencyCheck_le_one _ _ _ hzf.2⟩

theorem c10_confidence_normalization_witness :
    ((1:ℚ) < 150) ∧
    clampConfidence 150 = min (max ((150:ℚ) / 100) 0) 1 ∧
    (0 < (parse_agent_response pathNegW posW).confidence ∧
      (parse_agent_response pathNegW posW).confidence ≤ 1) :=
  ⟨by norm_num,
   (c10_confidence_normalization pathNegW posW 150).1 (by norm_num),
   (c10_confidence_normalization pathNegW posW 150).2.2.2⟩

/-! ### Per-asset analysis task and daily cache — `react_agent.py`,
`analyze_asset` (lines 128-186) -/

/-- External collaborators of `analyze_asset`.  `get_company_info` may fail
(the failure is caught and tolerated at react_agent.py lines 152-153, its
result only feeds the prompt text).  The decorated `_run_agent_analysis`
never raises — its body converts every internal failure into a fallback
response (lines 338-347), so the retry wrapper around it never observes an
exception — and is therefore modelled as a total function from the position
to the abstracted response text. -/
structure AgentEnv where
  get_company_info :
    Position → Except PyException (Option String × Option String)
  run_agent : Position → ParsePath

/-- The agent's `analysis_cache` dictionary.  The source key is the string
`f"{symbol}_{today:%Y-%m-%d}"`; it is modelled as the pair
(symbol, calendar day). -/
structure AgentState where
  analysis_cache : List ((String × Nat) × AssetAnalysis)
deriving DecidableEq, Repr

/-- Dictionary lookup in the analysis cache (latest insertion wins). -/
def cacheLookup (cache : List ((String × Nat) × AssetAnalysis))
    (k : String × Nat) : Option AssetAnalysis :=
  (cache.find? (fun e => decide (e.1 = k))).map (fun e => e.2)

/-- `analyze_asset` (react_agent.py lines 128-186): check the cache for
(symbol, today) and return the entry unchanged on a hit; on a miss fetch
company info (one collaborator call, failure tolerated), run the agent (one
collaborator call), parse the response, cache the result under the key, and
return it.  The returned `Nat` counts collaborator invocations.  The outer
`try/except` of lines 183-186 guards library-level failures that the embedded
pipeline cannot raise (every modelled step is total), so the
default-analysis path of line 186 is unreachable here. -/
def analyze_asset (env : AgentEnv) (st : AgentState) (today : Nat)
    (position : Position) : AssetAnalysis × AgentState × Nat :=
  let cache_key := (position.symbol, today)
  match cacheLookup st.analysis_cache cache_key with
  | some a => (a, st, 0)
  | none =>
    let _company_info := env.get_company_info position
    let agent_response := env.run_agent position
    let analysis := parse_agent_response agent_response position
    (analysis,
     { analysis_cache := (cache_key, analysis) :: st.analysis_cache }, 2)

/-- Claim C3: if the analysis cache holds an entry for (symbol, today), then
`analyze_asset` returns that cached analysis unchanged, leaves the state
unchanged, and performs no collaborator call; consequently, calling it twice
for the same symbol on the same day returns the identical value the second
time, and the second call invokes no collaborator. -/
theorem c3_cache_hit_no_external_calls (env : AgentEnv) (st : AgentState)
    (today : Nat) (position : Position) :
    (∀ a, cacheLookup st.analysis_cache (position.symbol, today) = some a →
      analyze_asset env st today position = (a, st, 0)) ∧
    analyze_asset env (analyze_asset env st today position).2.1 today position
      = ((analyze_asset env st today position).1,
         (analyze_asset env st today position).2.1, 0) := by
  constructor
  · intro a ha
    unfold analyze_asset
    simp only [ha]
  · cases h : cacheLookup st.analysis_cache (position.symbol, today) with
    | some a =>
      unfold analyze_asset
      simp only [h]
    | none =>
      have h1 : analyze_asset env st today position
          = (parse_agent_response (env.run_agent position) position,
             { analysis_cache := ((position.symbol, today),
                 parse_agent_response (env.run_agent position) position)
                 :: st.analysis_cache }, 2) := by
        unfold analyze_asset
        simp only [h]
      rw [h1]
      unfold analyze_asset
      simp [cacheLookup, List.find?]

/-- A concrete collaborator environment. -/
def envW : AgentEnv :=
  { get_company_info := fun _ => Except.error rateLimitErr,
    run_agent := fun _ => pathBlandW }

/-- A concrete cached analysis. -/
def analysisW : AssetAnalysis := _create_default_analysis posW

/-- A state whose cache already holds (symbol of `posW`, day 0). -/
def stW : AgentState := { analysis_cache := [((posW.symbol, 0), analysisW)] }

theorem c3_cache_hit_no_external_calls_witness :
    cacheLookup stW.analysis_cache (posW.symbol, 0) = some analysisW ∧
    analyze_asset envW stW 0 posW = (analysisW, stW, 0) :=
  ⟨rfl, (c3_cache_hit_no_external_calls envW stW 0 posW).1 analysisW rfl⟩

/-! ### Concurrency scheduler — `react_agent.py`,
`generate_portfolio_analysis` (lines 188-254, 949-1037) -/

/-- Scheduler configuration (react_agent.py lines 77-82, defaults from
`src/src/config/settings.py` lines 76-99). -/
structure SchedulerConfig where
  max_concurrent_analyses : Nat
  enable_parallel_processing : Bool
  api_rate_limit_delay : ℚ
  batch_delay : ℚ
  stagger_delay : ℚ
deriving DecidableEq, Repr

/-- The per-position outcome as collected by
`asyncio.gather(..., return_exceptions=True)` and post-processed
(react_agent.py lines 226-236 and 976-986): the task's analysis on success,
the default analysis if the task raised.  The `else` branch for an
unexpected result type is unreachable in the typed model. -/
def gatherResult (task : Position → Except PyException AssetAnalysis)
    (position : Position) : AssetAnalysis :=
  match task position with
  | Except.ok a => a
  | Except.error _ => _create_default_analysis position

/-- Direct mode (react_agent.py lines 210-238): one task per position, the
results collected in index order.  The stagger/rate-limit sleeps influence
timing only, not the returned values. -/
def directAnalysis (task : Position → Except PyException AssetAnalysis)
    (positions : List Position) : List AssetAnalysis :=
  positions.map (gatherResult task)

/-- The batching loop
`for i in range(0, len(all_positions), max_concurrent)` with the slices
`all_positions[i:i + max_concurrent]` (react_agent.py line 958-959).  Python
raises `ValueError` for step 0; the model returns `[]` there and the claims
assume a positive chunk size. -/
def toBatches (c : Nat) (l : List α) : List (List α) :=
  match c, l with
  | _, [] => []
  | 0, _ => []
  | c + 1, a :: rest =>
    (a :: rest).take (c + 1) :: toBatches (c + 1) ((a :: rest).drop (c + 1))
termination_by l.length
decreasing_by
  simp only [List.length_drop, List.length_cons]
  omega

theorem toBatches_flatten (c : Nat) (hc : c ≠ 0) :
    (l : List α) → (toBatches c l).flatten = l
  | [] => by simp [toBatches]
  | a :: rest => by
    obtain ⟨d, rfl⟩ : ∃ d, c = d + 1 := ⟨c - 1, by omega⟩
    simp only [toBatches, List.flatten_cons]
    rw [toBatches_flatten (d + 1) (by omega) ((a :: rest).drop (d + 1))]
    exact List.take_append_drop _ _
termination_by l => l.length
decreasing_by
  simp only [List.length_drop, List.length_cons]
  omega

/-- The number of batches equals `(n + c - 1) / c`, the `total_batches`
formula of react_agent.py line 961. -/
theorem toBatches_length (c : Nat) (hc : c ≠ 0) :
    (l : List α) → (toBatches c l).length = (l.length + c - 1) / c
  | [] => by
    simp only [toBatches, List.length_nil, List.length_nil, Nat.zero_add]
    exact (Nat.div_eq_of_lt (by omega)).symm
  | a :: rest => by
    obtain ⟨d, rfl⟩ : ∃ d, c = d + 1 := ⟨c - 1, by omega⟩
    simp only [toBatches, List.length_cons]
    rw [toBatches_length (d + 1) (by omega) ((a :: rest).drop (d + 1))]
    simp only [List.length_drop, List.length_cons]
    rcases Nat.lt_or_ge (rest.length + 1) (d + 1) with hlt | hge
    · have hz : rest.length + 1 - (d + 1) = 0 := by omega
      rw [hz]
      have left : (0 + (d + 1) - 1) / (d + 1) = 0 := Nat.div_eq_of_lt (by omega)
      have right : (rest.length + 1 + (d + 1) - 1) / (d + 1) = 1 :=
        Nat.div_eq_of_lt_le (by omega) (by omega)
      rw [left, right]
    · have e1 : rest.length + 1 - (d + 1) + (d + 1) - 1 = rest.length := by omega
      have e2 : rest.length + 1 + (d + 1) - 1 = rest.length + (d + 1) := by omega
      rw [e1, e2, Nat.add_div_right _ (by omega)]
termination_by l => l.length
decreasing_by
  simp only [List.length_drop, List.length_cons]
  omega

/-- Batched mode (`_batch_portfolio_analysis`, react_agent.py lines
949-997): run each consecutive chunk of `max_concurrent` positions as direct
mode and concatenate the chunk results in original order.  The inter-batch
sleep affects timing only. -/
def batchAnalysis (task : Position → Except PyException AssetAnalysis)
    (max_concurrent : Nat) (positions : List Position) : List AssetAnalysis :=
  ((toBatches max_concurrent positions).map
    (fun batch => batch.map (gatherResult task))).flatten

/-- Sequential mode (`_sequential_portfolio_analysis`, react_agent.py lines
1005-1037): stocks in order, then crypto in order, substituting the default
analysis when a position's analysis raises. -/
def sequentialAnalysis (task : Position → Except PyException AssetAnalysis)
    (portfolio : Portfolio) : List AssetAnalysis :=
  portfolio.stocks.map (gatherResult task)
    ++ portfolio.crypto.map (gatherResult task)

/-- `str.upper()`, used by the symbol comparison of
`get_position_by_symbol`. -/
def pyUpper (s : String) : List Char := s.toList.map Char.toUpper

/-- `Portfolio.get_position_by_symbol` (portfolio.py lines 159-164):
case-insensitive first match over stocks then crypto. -/
def get_position_by_symbol (portfolio : Portfolio) (symbol : String) :
    Option Position :=
  (portfolio.stocks ++ portfolio.crypto).find?
    (fun p => decide (pyUpper p.symbol = pyUpper symbol))

/-- The per-analysis update of `_analyze_portfolio_correlations`
(react_agent.py lines 906-930): back-fill the portfolio weight and
reclassify the risk level by weight thresholds (>20% high, >10% medium,
else low).  Only risk fields change. -/
def correlationUpdate (portfolio : Portfolio) (a : AssetAnalysis) :
    AssetAnalysis :=
  match get_position_by_symbol portfolio a.symbol with
  | none => a
  | some p =>
    let weight := p.market_value / portfolio.total_value * 100
    { a with
      risk_assessment :=
        { a.risk_assessment with
          portfolio_weight := some weight
          risk_level :=
            if 20 < weight then RiskLevel.high
            else if 10 < weight then RiskLevel.medium
            else RiskLevel.low } }

/-- `_analyze_portfolio_correlations` applied to the collected analyses. -/
def _analyze_portfolio_correlations (portfolio : Portfolio)
    (analyses : List AssetAnalysis) : List AssetAnalysis :=
  analyses.map (correlationUpdate portfolio)

/-- `generate_portfolio_analysis` (react_agent.py lines 188-254): sequential
when parallel processing is disabled; otherwise direct mode when the
position count is within `max_concurrent_analyses`, batched mode above it;
an empty portfolio short-circuits to `[]`.  The except-handlers falling back
to sequential mode (lines 246-250, 999-1003) guard failures of the gather
machinery itself, which the pure model cannot produce. -/
def generate_portfolio_analysis (cfg : SchedulerConfig)
    (task : Position → Except PyException AssetAnalysis)
    (portfolio : Portfolio) : List AssetAnalysis :=
  if ! cfg.enable_parallel_processing then
    _analyze_portfolio_correlations portfolio (sequentialAnalysis task portfolio)
  else
    let all_positions := portfolio.stocks ++ portfolio.crypto
    if all_positions = [] then []
    else if cfg.max_concurrent_analyses < all_positions.length then
      _analyze_portfolio_correlations portfolio
        (batchAnalysis task cfg.max_concurrent_analyses all_positions)
    else
      _analyze_portfolio_correlations portfolio
        (directAnalysis task all_positions)

theorem correlationUpdate_recommendation (portfolio : Portfolio)
    (a : AssetAnalysis) :
    (correlationUpdate portfolio a).recommendation = a.recommendation := by
  unfold correlationUpdate
  split <;> rfl

/-- Claim C1: in every mode the scheduler returns exactly one analysis per
input position, in input order (stocks then crypto, each slot being the
task's result — or the default HOLD analysis when the task raised — passed
through the correlation re-weighting); the output length equals the position
count, an exception slot carries the default analysis with recommendation
HOLD, and 12 positions with `max_concurrent_analyses = 5` are processed in
exactly 3 batches. -/
theorem c1_scheduler_order_and_defaults (cfg : SchedulerConfig)
    (task : Position → Except PyException AssetAnalysis)
    (portfolio : Portfolio) (hc : 0 < cfg.max_concurrent_analyses) :
    generate_portfolio_analysis cfg task portfolio
      = (portfolio.stocks ++ portfolio.crypto).map
          (fun p => correlationUpdate portfolio (gatherResult task p)) ∧
    (generate_portfolio_analysis cfg task portfolio).length
      = portfolio.stocks.length + portfolio.crypto.length ∧
    (∀ p e, task p = Except.error e →
      correlationUpdate portfolio (gatherResult task p)
        = correlationUpdate portfolio (_create_default_analysis p) ∧
      (correlationUpdate portfolio (gatherResult task p)).recommendation
        = Recommendation.HOLD) ∧
    ((portfolio.stocks ++ portfolio.crypto).length = 12 →
      cfg.max_concurrent_analyses = 5 →
      (toBatches cfg.max_concurrent_analyses
        (portfolio.stocks ++ portfolio.crypto)).length = 3) := by
  have hmain : generate_portfolio_analysis cfg task portfolio
      = (portfolio.stocks ++ portfolio.crypto).map
          (fun p => correlationUpdate portfolio (gatherResult task p)) := by
    unfold generate_portfolio_analysis
    by_cases hp : cfg.enable_parallel_processing
    · simp only [hp, Bool.not_true, Bool.false_eq_true, if_false]
      by_cases hemp : portfolio.stocks ++ portfolio.crypto = []
      · simp [hemp]
      · simp only [hemp, if_false]
        by_cases hbig : cfg.max_concurrent_analyses
            < (portfolio.stocks ++ portfolio.crypto).length
        · simp only [hbig, if_true]
          unfold _analyze_portfolio_correlations batchAnalysis
          rw [← List.map_flatten,
            toBatches_flatten cfg.max_concurrent_analyses (by omega),
            List.map_map]
          rfl
        · simp only [hbig, if_false]
          unfold _analyze_portfolio_correlations directAnalysis
          rw [List.map_map]
          rfl
    · simp only [hp, Bool.not_false, if_true]
      unfold _analyze_portfolio_correlations sequentialAnalysis
      rw [List.map_append, List.map_map, List.map_map, List.map_append]
      rfl
  refine ⟨hmain, ?_, ?_, ?_⟩
  · rw [hmain]
    simp
  · intro p e he
    constructor
    · unfold gatherResult
      rw [he]
    · rw [correlationUpdate_recommendation]
      unfold gatherResult
      rw [he]
      rfl
  · intro h12 h5
    rw [toBatches_length cfg.max_concurrent_analyses (by omega), h12, h5]

/-- Scheduler configuration with `max_concurrent_analyses = 5`. -/
def cfgSchedW : SchedulerConfig :=
  { max_concurrent_analyses := 5, enable_parallel_processing := true,
    api_rate_limit_delay := 1, batch_delay := 2, stagger_delay := 1/10 }

/-- A crypto position. -/
def posCryptoW : Position :=
  { symbol := "BTC", asset_type := AssetType.crypto, quantity := 1,
    current_price := 100, market_value := 100 }

/-- A 12-position portfolio: 7 stocks and 5 crypto positions. -/
def portfolioW : Portfolio :=
  { stocks := List.replicate 7 posW, crypto := List.replicate 5 posCryptoW,
    total_value := 1200 }

/-- A task that fails on crypto positions and succeeds on stocks. -/
def taskW (p : Position) : Except PyException AssetAnalysis :=
  if p.asset_type = AssetType.crypto then Except.error rateLimitErr
  else Except.ok (parse_agent_response pathBlandW p)

theorem c1_scheduler_order_and_defaults_witness :
    0 < cfgSchedW.max_concurrent_analyses ∧
    generate_portfolio_analysis cfgSchedW taskW portfolioW
      = (portfolioW.stocks ++ portfolioW.crypto).map
          (fun p => correlationUpdate portfolioW (gatherResult taskW p)) ∧
    (generate_portfolio_analysis cfgSchedW taskW portfolioW).length
      = portfolioW.stocks.length + portfolioW.crypto.length ∧
    ((portfolioW.stocks ++ portfolioW.crypto).length = 12 →
      cfgSchedW.max_concurrent_analyses = 5 →
      (toBatches cfgSchedW.max_concurrent_analyses
        (portfolioW.stocks ++ portfolioW.crypto)).length = 3) :=
  ⟨by norm_num [cfgSchedW],
   (c1_scheduler_order_and_defaults cfgSchedW taskW portfolioW
      (by norm_num [cfgSchedW])).1,
   (c1_scheduler_order_and_defaults cfgSchedW taskW portfolioW
      (by norm_num [cfgSchedW])).2.1,
   (c1_scheduler_order_and_defaults cfgSchedW taskW portfolioW
      (by norm_num [cfgSchedW])).2.2.2⟩

/-! ### Indicator calculator — `src/src/utils/data_processing.py` -/

/-- One bar of `price_data`: the optional values of the keys `close`,
`high`, `low`, `volume`. -/
structure PriceBar where
  close : Option ℚ := none
  high : Option ℚ := none
  low : Option ℚ := none
  volume : Option ℚ := none
deriving DecidableEq, Repr

/-- `[float(item.get(key, 0)) for item in price_data if item.get(key)]`
(data_processing.py lines 24-27): the values that are present and truthy
(nonzero). -/
def truthyVals (f : PriceBar → Option ℚ) (bars : List PriceBar) : List ℚ :=
  bars.filterMap (fun b =>
    match f b with
    | some x => if x = 0 then none else some x
    | none => none)

/-- `statistics.mean`: sum divided by length. -/
def pyMean {K : Type} [DivisionRing K] (l : List K) : K :=
  l.sum / (l.length : K)

/-- The Python slice `l[-n:]` (the whole list when `n ≥ len(l)`). -/
def pyTakeLast (n : Nat) (l : List α) : List α := l.drop (l.length - n)

/-- `round(q, 2)`.  (Python rounds ties to even; `round` here rounds ties
up.  No claim's value sits on a tie.) -/
def pyRound2 {K : Type} [LinearOrderedField K] [FloorRing K] (q : K) : K :=
  ((round (q * 100) : ℤ) : K) / 100

/-- `changes = [prices[i] - prices[i-1] for i in range(1, len(prices))]`. -/
def deltas (prices : List ℚ) : List ℚ :=
  List.zipWith (fun prev next => next - prev) prices prices.tail

/-- `DataProcessor._calculate_rsi` (data_processing.py lines 78-107): 50.0
with fewer than `period + 1` prices; otherwise average gain over average
loss of the last `period` deltas, 100.0 when the average loss is exactly
zero, else `100 - 100 / (1 + rs)` rounded to 2 decimals. -/
def _calculate_rsi (prices : List ℚ) (period : Nat := 14) : ℚ :=
  if prices.length < period + 1 then 50
  else
    let changes := deltas prices
    let gains := changes.map (fun change => if 0 < change then change else 0)
    let losses := changes.map (fun change => if change < 0 then -change else 0)
    let avg_gain := pyMean (pyTakeLast period gains)
    let avg_loss := pyMean (pyTakeLast period losses)
    if avg_loss = 0 then 100
    else
      let rs := avg_gain / avg_loss
      pyRound2 (100 - 100 / (1 + rs))

/-- The indicator mapping returned by `calculate_technical_indicators`,
restricted to the rational-valued keys the claims mention: the SMA entries
and `rsi`.  The MACD, Bollinger, volatility, support/resistance and volume
entries of the source dict are either orthogonal to every claim or require
real square roots; the Bollinger entries are modelled separately by
`_calculate_bollinger_bands` below. -/
structure TechnicalIndicatorsMap where
  sma_20 : Option ℚ := none
  sma_50 : Option ℚ := none
  sma_200 : Option ℚ := none
  rsi : Option ℚ := none
deriving DecidableEq, Repr

/-- `DataProcessor.calculate_technical_indicators`
(data_processing.py lines 16-76): empty for fewer than 2 bars or no truthy
closes; otherwise each key is present exactly when enough closes exist
(`sma_20`/`sma_50`/`sma_200` at 20/50/200, `rsi` at 14). -/
def calculate_technical_indicators (price_data : List PriceBar) :
    TechnicalIndicatorsMap :=
  if price_data.length < 2 then {}
  else
    let closes := truthyVals (fun b => b.close) price_data
    if closes = [] then {}
    else
      { sma_20 :=
          if 20 ≤ closes.length then some (pyMean (pyTakeLast 20 closes))
          else none
        sma_50 :=
          if 50 ≤ closes.length then some (pyMean (pyTakeLast 50 closes))
          else none
        sma_200 :=
          if 200 ≤ closes.length then some (pyMean (pyTakeLast 200 closes))
          else none
        rsi :=
          if 14 ≤ closes.length then some (_calculate_rsi closes)
          else none }

/-- Claim C7: the RSI computation returns exactly 50.0 for fewer than 15
prices; for at least 15 prices whose last-14-delta average loss is exactly
zero it returns 100.0; and the indicator mapping carries the RSI value for
every series of at least 14 truthy closes. -/
theorem c7_rsi_neutral_and_present (prices : List ℚ)
    (price_data : List PriceBar) :
    (prices.length < 15 → _calculate_rsi prices = 50) ∧
    (15 ≤ prices.length →
      pyMean (pyTakeLast 14 ((deltas prices).map
        (fun change => if change < 0 then -change else 0))) = 0 →
      _calculate_rsi prices = 100) ∧
    (14 ≤ (truthyVals (fun b => b.close) price_data).length →
      (calculate_technical_indicators price_data).rsi
        = some (_calculate_rsi (truthyVals (fun b => b.close) price_data))) := by
  refine ⟨?_, ?_, ?_⟩
  · intro h
    unfold _calculate_rsi
    rw [if_pos (by omega)]
  · intro h15 hzero
    unfold _calculate_rsi
    rw [if_neg (by omega)]
    simp only [hzero, if_pos]
  · intro h14
    have hlen : (truthyVals (fun b => b.close) price_data).length
        ≤ price_data.length := List.length_filterMap_le _ _
    have h2 : ¬ (price_data.length < 2) := by omega
    have hne : ¬ (truthyVals (fun b => b.close) price_data = []) := by
      intro h
      rw [h] at h14
      simp at h14
    unfold calculate_technical_indicators
    rw [if_neg h2, if_neg hne]
    simp only
    rw [if_pos h14]

/-- Fourteen bars, each with close 1. -/
def barsW : List PriceBar := List.replicate 14 { close := some 1 }

/-- Fifteen strictly rising prices - every delta is a gain, so the average
loss over the last 14 deltas is exactly zero. -/
def risingPricesW : List ℚ :=
  [1, 2, 3, 4, 5, 6, 7, 8, 9, 10, 11, 12, 13, 14, 15]

theorem c7_rsi_neutral_and_present_witness :
    (([1, 2, 3] : List ℚ).length < 15 ∧ _calculate_rsi [1, 2, 3] = 50) ∧
    (15 ≤ risingPricesW.length ∧
      pyMean (pyTakeLast 14 ((deltas risingPricesW).map
        (fun change => if change < 0 then -change else 0))) = 0 ∧
      _calculate_rsi risingPricesW = 100) ∧
    (14 ≤ (truthyVals (fun b => b.close) barsW).length ∧
      (calculate_technical_indicators barsW).rsi
        = some (_calculate_rsi (truthyVals (fun b => b.close) barsW))) := by
  have hloss : pyMean (pyTakeLast 14 ((deltas risingPricesW).map
      (fun change => if change < 0 then -change else 0))) = 0 := by
    norm_num [pyMean, pyTakeLast, deltas, risingPricesW]
  refine ⟨⟨by norm_num, (c7_rsi_neutral_and_present [1, 2, 3] barsW).1
      (by norm_num)⟩,
    ⟨by norm_num [risingPricesW], hloss,
      (c7_rsi_neutral_and_present risingPricesW barsW).2.1
        (by norm_num [risingPricesW]) hloss⟩,
    ⟨by decide, (c7_rsi_neutral_and_present [1, 2, 3] barsW).2.2 (by decide)⟩⟩

/-! ### Bollinger bands — `_calculate_bollinger_bands`
(data_processing.py lines 163-189).  The square root forces these
definitions into `ℝ`. -/

/-- `statistics.variance(data)` as called at data_processing.py line 174:
the SAMPLE variance — sum of squared deviations from the mean divided by
`n - 1`. -/
noncomputable def pySampleVariance (l : List ℝ) : ℝ :=
  (l.map (fun x => (x - pyMean l) ^ 2)).sum / ((l.length : ℝ) - 1)

/-- `DataProcessor._calculate_bollinger_bands`
(data_processing.py lines 163-189): `None` below `period` prices, otherwise
`(bb_upper, bb_middle, bb_lower)` with middle the mean of the last `period`
prices and upper/lower at `± std_dev` sample standard deviations, each
rounded to 2 decimals. -/
noncomputable def _calculate_bollinger_bands (prices : List ℝ)
    (period : Nat := 20) (std_dev : ℝ := 2) : Option (ℝ × ℝ × ℝ) :=
  if prices.length < period then none
  else
    let window := pyTakeLast period prices
    let middle := pyMean window
    let variance := pySampleVariance window
    let std := Real.sqrt variance
    let upper := middle + std * std_dev
    let lower := middle - std * std_dev
    some (pyRound2 upper, pyRound2 middle, pyRound2 lower)

/-- The sample standard deviation used by the source
(`statistics.variance ** 0.5`). -/
noncomputable def sampleStdev (l : List ℝ) : ℝ := Real.sqrt (pySampleVariance l)

/-- The POPULATION standard deviation named by the claim: square root of the
sum of squared deviations from the mean divided by `n`. -/
noncomputable def populationStdev (l : List ℝ) : ℝ :=
  Real.sqrt ((l.map (fun x => (x - pyMean l) ^ 2)).sum / (l.length : ℝ))

/-- Claim C8 (amended): for every series of at least 20 closes, the
Bollinger computation returns middle equal to the mean of the last 20 closes
and upper/lower equal to middle plus/minus 2 times the SAMPLE standard
deviation (Bessel-corrected, denominator n-1, `statistics.variance`) of the
last 20 closes, each rounded to 2 decimals. -/
theorem c8_bollinger_sample_stdev (prices : List ℝ)
    (h : 20 ≤ prices.length) :
    _calculate_bollinger_bands prices
      = some (pyRound2 (pyMean (pyTakeLast 20 prices)
                + 2 * sampleStdev (pyTakeLast 20 prices)),
              pyRound2 (pyMean (pyTakeLast 20 prices)),
              pyRound2 (pyMean (pyTakeLast 20 prices)
                - 2 * sampleStdev (pyTakeLast 20 prices))) := by
  unfold _calculate_bollinger_bands sampleStdev
  rw [if_neg (by omega)]
  ring_nf

/-- Twenty closes whose sample variance is the perfect square 400 (sample
standard deviation 20). -/
def bbPricesW : List ℝ :=
  [160, 40, 110, 90, 110, 90, 100, 100, 100, 100,
   100, 100, 100, 100, 100, 100, 100, 100, 100, 100]

theorem c8_bollinger_sample_stdev_witness :
    20 ≤ bbPricesW.length ∧
    _calculate_bollinger_bands bbPricesW
      = some (pyRound2 (pyMean (pyTakeLast 20 bbPricesW)
                + 2 * sampleStdev (pyTakeLast 20 bbPricesW)),
              pyRound2 (pyMean (pyTakeLast 20 bbPricesW)),
              pyRound2 (pyMean (pyTakeLast 20 bbPricesW)
                - 2 * sampleStdev (pyTakeLast 20 bbPricesW))) :=
  ⟨by norm_num [bbPricesW],
   c8_bollinger_sample_stdev bbPricesW (by norm_num [bbPricesW])⟩

/-- Twenty closes alternating between 10 and 20: population standard
deviation exactly 5, sample standard deviation `√(500/19) ≈ 5.13`. -/
def bbPricesCx : List ℝ :=
  [10, 20, 10, 20, 10, 20, 10, 20, 10, 20,
   10, 20, 10, 20, 10, 20, 10, 20, 10, 20]

/-- Claim C8, counterexample: on twenty closes alternating between 10 and
20 the claim predicts `bb_upper = round2(15 + 2 × 5) = 25` from the
population standard deviation 5, but `_calculate_bollinger_bands` — which
uses `statistics.variance`, the sample variance — returns an upper band of
at least 25.26, so the claimed tuple is not the returned one. -/
theorem c8_counterexample_population_stdev_wrong :
    pyRound2 (pyMean (pyTakeLast 20 bbPricesCx)
        + 2 * populationStdev (pyTakeLast 20 bbPricesCx)) = 25 ∧
    20 ≤ bbPricesCx.length ∧
    _calculate_bollinger_bands bbPricesCx
      ≠ some (pyRound2 (pyMean (pyTakeLast 20 bbPricesCx)
                + 2 * populationStdev (pyTakeLast 20 bbPricesCx)),
              pyRound2 (pyMean (pyTakeLast 20 bbPricesCx)),
              pyRound2 (pyMean (pyTakeLast 20 bbPricesCx)
                - 2 * populationStdev (pyTakeLast 20 bbPricesCx))) := by
  have htake : pyTakeLast 20 bbPricesCx = bbPricesCx := by
    unfold pyTakeLast
    norm_num [bbPricesCx]
  have hmean : pyMean bbPricesCx = 15 := by
    unfold pyMean
    norm_num [bbPricesCx]
  have hsq : (bbPricesCx.map (fun x => (x - pyMean bbPricesCx) ^ 2)).sum
      = 500 := by
    rw [hmean]
    norm_num [bbPricesCx]
  have hpop : populationStdev bbPricesCx = 5 := by
    unfold populationStdev
    rw [hsq]
    norm_num [bbPricesCx]
    rw [show (25:ℝ) = 5 ^ 2 by norm_num]
    exact Real.sqrt_sq (by norm_num)
  have hsampv : pySampleVariance bbPricesCx = 500 / 19 := by
    unfold pySampleVariance
    rw [hsq]
    norm_num [bbPricesCx]
  have hclaim : pyRound2 (pyMean (pyTakeLast 20 bbPricesCx)
      + 2 * populationStdev (pyTakeLast 20 bbPricesCx)) = 25 := by
    rw [htake, hmean, hpop]
    rw [show (15:ℝ) + 2 * 5 = 25 by norm_num]
    unfold pyRound2
    rw [show (25:ℝ) * 100 = 2500 by norm_num, round_ofNat]
    norm_num
  have hcode : _calculate_bollinger_bands bbPricesCx
      = some (pyRound2 ((15:ℝ) + Real.sqrt (500 / 19) * 2),
              pyRound2 (15:ℝ),
              pyRound2 ((15:ℝ) - Real.sqrt (500 / 19) * 2)) := by
    simp only [_calculate_bollinger_bands]
    rw [if_neg (by norm_num [bbPricesCx])]
    rw [htake, hmean, hsampv]
  have hs_lb : (5128:ℝ) / 1000 < Real.sqrt (500 / 19) := by
    rw [show (5128:ℝ)/1000 < Real.sqrt (500/19) ↔ ((5128:ℝ)/1000) ^ 2 < 500/19
      from Real.lt_sqrt (by norm_num)]
    norm_num
  have hup : (2526:ℝ) / 100 ≤ pyRound2 ((15:ℝ) + Real.sqrt (500 / 19) * 2) := by
    unfold pyRound2
    rw [round_eq]
    have hfloor : (2526:ℤ)
        ≤ ⌊((15:ℝ) + Real.sqrt (500 / 19) * 2) * 100 + 1 / 2⌋ := by
      rw [Int.le_floor]
      push_cast
      nlinarith [hs_lb]
    have hcast : (2526:ℝ)
        ≤ ((⌊((15:ℝ) + Real.sqrt (500 / 19) * 2) * 100 + 1 / 2⌋ : ℤ) : ℝ) := by
      exact_mod_cast hfloor
    exact (div_le_div_iff_of_pos_right (by norm_num : (0:ℝ) < 100)).mpr hcast
  have hne25 : pyRound2 ((15:ℝ) + Real.sqrt (500 / 19) * 2) ≠ 25 := by
    intro h
    rw [h] at hup
    norm_num at hup
  refine ⟨hclaim, by norm_num [bbPricesCx], ?_⟩
  intro heq
  rw [hcode] at heq
  have h1 := congrArg (fun o => o.map Prod.fst) heq
  simp only [Option.map_some] at h1
  rw [hclaim] at h1
  exact hne25 (Option.some.inj h1)

end Quantasaurus
